import Mathlib

/-!
Shallow embedding of the autopprof resource-usage sentinel (Go) and proofs
about it.

Modelling conventions:
* Go `float64` values are modelled as exact rationals (`ℚ`); every arithmetic
  expression appearing in the claims is exactly representable.
* Go `uint64` values are modelled as `Nat` together with explicit `% 2^64`
  wrap-around where the source performs unsigned subtraction.
* Go `time.Time` / `time.Duration` are modelled as an `Int` count of
  nanoseconds (the granularity used by the source).
* Fallible Go calls (`(T, error)` returns) are modelled with `Except` /
  `Option GoErr`; external effects (reading a cgroup stat, the profiler, the
  reporter) are passed in as explicit arguments so each function is pure.
-/

/-- Errors produced or propagated by the embedded code.  Constructors stand
for the distinct Go error values / wrappers relevant to the claims. -/
inductive GoErr where
  | errCgroupsUnavailable
  | errV1CPUSubsystemEmpty
  | openFailed
  | atoiFailed
  | scanFailed
  | statFailed
  | memReadFailed
  | captureFailed
  | deliveryFailed
  | wrapCPUProfile (e : GoErr)
  | wrapHeapProfile (e : GoErr)
  deriving DecidableEq, Repr

/-- Value of a list of decimal digit characters, most significant first. -/
def digitsVal (cs : List Char) : Nat :=
  cs.foldl (fun acc c => 10 * acc + (c.toNat - 48)) 0

/-- Model of Go strconv.Atoi as used by cgroupV1.parseCPU: an optional sign
followed by a nonempty run of decimal digits parses to an integer; anything
else is an error (`none`).  Range errors of the 64-bit Go int are not
modelled; no claim involves out-of-range values. -/
def atoi (s : String) : Option Int :=
  match s.toList with
  | [] => none
  | c :: rest =>
    let (sign, digits) : Int × List Char :=
      if c = '-' then (-1, rest)
      else if c = '+' then (1, rest)
      else (1, c :: rest)
    if digits.isEmpty then none
    else if digits.all Char.isDigit then some (sign * (digitsVal digits : Int))
    else none

/-- Result of attempting to read an accounting file: the open can fail, the
scanner can fail, or we get the file's lines. -/
inductive FileRead where
  | unreadable
  | scanError
  | lines (ls : List String)
  deriving DecidableEq, Repr

/-- Embedding of cgroupV1.parseCPU: open the file (failure propagates), scan
the first line and parse it with Atoi; an empty readable file yields
ErrV1CPUSubsystemEmpty. -/
def parseCPU (f : FileRead) : Except GoErr Int :=
  match f with
  | .unreadable => .error .openFailed
  | .scanError => .error .scanFailed
  | .lines ls =>
    match ls.head? with
    | some line =>
      match atoi line with
      | some v => .ok v
      | none => .error .atoiFailed
    | none => .error .errV1CPUSubsystemEmpty

/-- Embedding of cpuUsageSnapshot: cumulative CPU time in nanoseconds
(a uint64 counter) plus a timestamp in nanoseconds. -/
structure CPUUsageSnapshot where
  usage : Nat
  timestamp : Int
  deriving DecidableEq, Repr

/-- Modelled from the spec: the cpuUsageSnapshotQueue implementation file is
not among the provided sources (only its callers are).  Per the spec it is an
ordered fixed-capacity FIFO whose `isFull` is a monotonic latch: it reports
whether capacity has been reached at least once and stays true afterwards. -/
structure CPUUsageSnapshotQueue where
  capacity : Nat
  items : List CPUUsageSnapshot
  full : Bool
  deriving DecidableEq, Repr

/-- Modelled from the spec: fresh empty queue of the given capacity
(newCPUUsageSnapshotQueue). -/
def newCPUUsageSnapshotQueue (size : Nat) : CPUUsageSnapshotQueue :=
  ⟨size, [], false⟩

/-- Modelled from the spec: enqueue inserts at the tail, evicting the head
when at capacity, and latches `full` once size reaches capacity. -/
def CPUUsageSnapshotQueue.enqueue (q : CPUUsageSnapshotQueue)
    (s : CPUUsageSnapshot) : CPUUsageSnapshotQueue :=
  let it := q.items ++ [s]
  let kept := if q.capacity < it.length then it.drop (it.length - q.capacity) else it
  ⟨q.capacity, kept, q.full || decide (q.capacity ≤ kept.length)⟩

/-- Modelled from the spec: isFull is the monotonic "reached capacity at
least once" latch. -/
def CPUUsageSnapshotQueue.isFull (q : CPUUsageSnapshotQueue) : Bool :=
  q.full

/-- Modelled from the spec: head returns the oldest retained snapshot.
Callers gate on isFull, so the default value is never observed. -/
def CPUUsageSnapshotQueue.headSnap (q : CPUUsageSnapshotQueue) : CPUUsageSnapshot :=
  q.items.headD ⟨0, 0⟩

/-- Modelled from the spec: tail returns the most recently inserted
snapshot.  Callers gate on isFull, so the default value is never observed. -/
def CPUUsageSnapshotQueue.tailSnap (q : CPUUsageSnapshotQueue) : CPUUsageSnapshot :=
  q.items.getLastD ⟨0, 0⟩

/-- Queue size used by both provider constructors (cgroups.go):
24 snapshots, i.e. 24 * 5s = 2 minutes at the default watch interval. -/
def cpuUsageSnapshotQueueSize : Nat := 24

/-- Fields of the containerd v1.Metrics value read by stat() that the
providers actually use: the cumulative CPU usage counter (uint64
nanoseconds) and the three memory-stat fields. -/
structure V1Metrics where
  cpuUsageTotal : Nat
  memUsage : Nat
  inactiveFile : Nat
  hierarchicalMemoryLimit : Nat
  deriving DecidableEq, Repr

/-- Reinterpretation of a uint64 bit pattern as a Go int64, as performed by
the conversion time.Duration(s2.usage - s1.usage). -/
def int64OfUInt64 (n : Nat) : Int :=
  if n < 2 ^ 63 then (n : Int) else (n : Int) - 2 ^ 64

/-- Unsigned 64-bit subtraction a - b as Go computes it on uint64. -/
def u64Sub (a b : Nat) : Nat :=
  (a + 2 ^ 64 - b) % 2 ^ 64

/-- Embedding of the cgroupV1 provider state: the quota fraction set by
setCPUQuota and the snapshot queue. -/
structure cgroupV1 where
  cpuQuota : ℚ
  q : CPUUsageSnapshotQueue
  deriving DecidableEq, Repr

/-- Embedding of newCgroupsV1: zero quota (Go float64 zero value) and a
fresh queue of the standard capacity. -/
def newCgroupsV1 : cgroupV1 :=
  ⟨0, newCPUUsageSnapshotQueue cpuUsageSnapshotQueueSize⟩

/-- Embedding of cgroupV1.setCPUQuota: parse the quota file then the period
file (each failure propagates) and store quota / period.  The file contents
are passed in explicitly. -/
def cgroupV1.setCPUQuota (c : cgroupV1) (quotaFile periodFile : FileRead) :
    cgroupV1 × Option GoErr :=
  match parseCPU quotaFile with
  | .error e => (c, some e)
  | .ok quota =>
    match parseCPU periodFile with
    | .error e => (c, some e)
    | .ok period => ({ c with cpuQuota := (quota : ℚ) / (period : ℚ) }, none)

/-- Embedding of cgroupV1.cpuUsage.  The result of stat() is passed in as
`stat`, the current time as `now` (nanoseconds).  On stat failure returns
(0, error); otherwise pushes a snapshot, returns (0, nil) while the queue is
not full, and once full returns ((tail.usage - head.usage as uint64, viewed
as int64 nanoseconds) / (tail.timestamp - head.timestamp)) / cpuQuota. -/
def cgroupV1.cpuUsage (c : cgroupV1) (stat : Except GoErr V1Metrics)
    (now : Int) : cgroupV1 × ℚ × Option GoErr :=
  match stat with
  | .error e => (c, 0, some e)
  | .ok m =>
    let c' : cgroupV1 := { c with q := c.q.enqueue ⟨m.cpuUsageTotal, now⟩ }
    if c'.q.isFull then
      let s1 := c'.q.headSnap
      let s2 := c'.q.tailSnap
      let delta : Int := int64OfUInt64 (u64Sub s2.usage s1.usage)
      let duration : Int := s2.timestamp - s1.timestamp
      (c', ((delta : ℚ) / (duration : ℚ)) / c.cpuQuota, none)
    else
      (c', 0, none)

/-- Embedding of cgroupV1.memUsage: (usage - inactiveFile) is computed by
unsigned 64-bit subtraction, then divided by the hierarchical memory
limit. -/
def cgroupV1.memUsage (stat : Except GoErr V1Metrics) : ℚ × Option GoErr :=
  match stat with
  | .error e => (0, some e)
  | .ok m =>
    let usage := u64Sub m.memUsage m.inactiveFile
    ((usage : ℚ) / (m.hierarchicalMemoryLimit : ℚ), none)

/-- Per-vCPU nanosecond budget constant of the AWS Fargate provider
(aws_fargate.go: limitPerVCPU). -/
def limitPerVCPU : Nat := 1206340307240

/-- Embedding of the awsFargate provider state: the configured vCPU count
and the snapshot queue. -/
structure awsFargate where
  vCPUSize : ℚ
  q : CPUUsageSnapshotQueue
  deriving DecidableEq, Repr

/-- Embedding of newAWSFargate. -/
def newAWSFargate (vcpuSize : ℚ) : awsFargate :=
  ⟨vcpuSize, newCPUUsageSnapshotQueue cpuUsageSnapshotQueueSize⟩

/-- Embedding of awsFargate.setCPUQuota: a no-op that always succeeds. -/
def awsFargate.setCPUQuota (a : awsFargate) : awsFargate × Option GoErr :=
  (a, none)

/-- Embedding of awsFargate.cpuUsage: pushes a snapshot, returns (0, nil)
while the queue is not full, and once full divides the raw cumulative
counter by limitPerVCPU * vCPUSize. -/
def awsFargate.cpuUsage (a : awsFargate) (stat : Except GoErr V1Metrics)
    (now : Int) : awsFargate × ℚ × Option GoErr :=
  match stat with
  | .error e => (a, 0, some e)
  | .ok m =>
    let a' : awsFargate := { a with q := a.q.enqueue ⟨m.cpuUsageTotal, now⟩ }
    if a'.q.isFull then
      (a', (m.cpuUsageTotal : ℚ) / ((limitPerVCPU : ℚ) * a.vCPUSize), none)
    else
      (a', 0, none)

/-- Embedding of awsFargate.memUsage, textually identical to
cgroupV1.memUsage in the source. -/
def awsFargate.memUsage (stat : Except GoErr V1Metrics) : ℚ × Option GoErr :=
  match stat with
  | .error e => (0, some e)
  | .ok m =>
    let usage := u64Sub m.memUsage m.inactiveFile
    ((usage : ℚ) / (m.hierarchicalMemoryLimit : ℚ), none)

/-- Accounting mode detected by cgroups.Mode() at startup; `unavailable`
stands for every value outside the recognized legacy/hybrid/unified modes
(the switch in newQueryer falls through to an error for those). -/
inductive CgroupsMode where
  | legacy
  | hybrid
  | unified
  | unavailable
  deriving DecidableEq, Repr

/-- Tag naming which concrete queryer variant was constructed. -/
inductive QueryerVariant where
  | v1
  | v2
  | fargate
  deriving DecidableEq, Repr

/-- Embedding of newQueryer (cgroups.go): legacy mode selects the v1
variant, hybrid and unified select the v2 variant, anything else is
ErrCgroupsUnavailable. -/
def newQueryer (mode : CgroupsMode) : Except GoErr QueryerVariant :=
  match mode with
  | .legacy => .ok .v1
  | .hybrid => .ok .v2
  | .unified => .ok .v2
  | .unavailable => .error .errCgroupsUnavailable

/-- Embedding of the variant-selection prefix of Start (autopprof.go): first
newQueryer runs (its error aborts Start), then, if the UseAWSFargate option
is set, the queryer is replaced by the fargate variant. -/
def startSelectQueryer (mode : CgroupsMode) (useAWSFargate : Bool) :
    Except GoErr QueryerVariant :=
  match newQueryer mode with
  | .error e => .error e
  | .ok q => if useAWSFargate then .ok .fargate else .ok q

/-- Fields of the autoPprof struct relevant to quota loading and the watch
loops. -/
structure autoPprof where
  cpuThreshold : ℚ
  memThreshold : ℚ
  minConsecutiveOverThreshold : Nat
  reportBoth : Bool
  disableCPUProf : Bool
  disableMemProf : Bool
  deriving DecidableEq, Repr

/-- Embedding of autoPprof.loadCPUQuota.  The outcome of
queryer.setCPUQuota() is passed in as `setQuotaErr`.  On success nothing
changes; on failure, if memory profiling is disabled the error is returned,
otherwise the error is only logged and cpu profiling is disabled. -/
def autoPprof.loadCPUQuota (ap : autoPprof) (setQuotaErr : Option GoErr) :
    autoPprof × Option GoErr :=
  match setQuotaErr with
  | none => (ap, none)
  | some e =>
    if ap.disableMemProf then (ap, some e)
    else ({ ap with disableCPUProf := true }, none)

/-- Embedding of the quota-loading step of Start: loadCPUQuota runs only
when cpu profiling is enabled, and its error aborts Start. -/
def startLoadCPUQuota (ap : autoPprof) (setQuotaErr : Option GoErr) :
    Except GoErr autoPprof :=
  if ap.disableCPUProf then .ok ap
  else
    match ap.loadCPUQuota setQuotaErr with
    | (ap', none) => .ok ap'
    | (_, some e) => .error e

/-- Report deadline constant (autopprof.go: reportTimeout = 5 *
time.Second), in nanoseconds. -/
def reportTimeout : Int := 5 * 1000000000

/-- Metadata handed to Reporter.ReportCPUProfile. -/
structure CPUInfo where
  thresholdPercentage : ℚ
  usagePercentage : ℚ
  deriving DecidableEq, Repr

/-- Metadata handed to Reporter.ReportHeapProfile. -/
structure MemInfo where
  thresholdPercentage : ℚ
  usagePercentage : ℚ
  deriving DecidableEq, Repr

/-- Embedding of autoPprof.reportCPUProfile.  The profiler outcome is passed
in as `profiled` (captured bytes or error) and the external reporter as a
function of the context deadline (nanoseconds), the profile bytes and the
CPUInfo.  A capture failure is wrapped and returned; otherwise the
reporter's outcome is returned. -/
def autoPprof.reportCPUProfile (ap : autoPprof)
    (profiled : Except GoErr (List Nat))
    (reporter : Int → List Nat → CPUInfo → Option GoErr)
    (cpuUsage : ℚ) : Option GoErr :=
  match profiled with
  | .error e => some (.wrapCPUProfile e)
  | .ok b => reporter reportTimeout b ⟨ap.cpuThreshold * 100, cpuUsage * 100⟩

/-- Embedding of autoPprof.reportHeapProfile, symmetric to
reportCPUProfile. -/
def autoPprof.reportHeapProfile (ap : autoPprof)
    (profiled : Except GoErr (List Nat))
    (reporter : Int → List Nat → MemInfo → Option GoErr)
    (memUsage : ℚ) : Option GoErr :=
  match profiled with
  | .error e => some (.wrapHeapProfile e)
  | .ok b => reporter reportTimeout b ⟨ap.memThreshold * 100, memUsage * 100⟩

/-- Configuration of one watcher loop (watchCPUUsage and watchMemUsage are
symmetric; `disableOtherProf` is the disable flag of the other resource
kind, consulted on the cross-reporting path). -/
structure WatchCfg where
  threshold : ℚ
  minConsecutiveOverThreshold : Nat
  reportBoth : Bool
  disableOtherProf : Bool
  deriving DecidableEq, Repr

/-- External inputs consumed by one tick of a watcher loop: the usage read
for this resource kind, the outcome of this kind's profile report (consulted
only for logging), and, on the cross-reporting path, the other kind's usage
read and report outcome. -/
structure Tick where
  usage : Except GoErr ℚ
  reportResult : Option GoErr
  otherUsage : Except GoErr ℚ
  otherReportResult : Option GoErr
  deriving Repr

/-- Observable outcome of one tick: whether this kind's profile was
reported, whether the other kind's profile was reported (cross-reporting),
and the continuation — `some cnt` to keep looping with the new
consecutive-over-threshold counter, `none` when the loop returned. -/
structure StepResult where
  reported : Bool
  crossReported : Bool
  next : Option Nat
  deriving DecidableEq, Repr

/-- Counter update at the end of an at-or-above-threshold tick: increment,
then reset to 0 once the debounce limit is reached. -/
def bumpCnt (cfg : WatchCfg) (cnt : Nat) : Nat :=
  if cfg.minConsecutiveOverThreshold ≤ cnt + 1 then 0 else cnt + 1

/-- Embedding of one iteration of the watcher loop body (autopprof.go,
watchCPUUsage / watchMemUsage): a usage-read error returns from the loop;
usage below threshold resets the counter; at a new breach (counter 0) the
profile is reported (a report failure is only logged), and if cross-
reporting applies, the other kind's usage is read — a failure of that read
returns from the loop, otherwise the other profile is reported (again, a
failure only logged); finally the counter is bumped. -/
def watchStep (cfg : WatchCfg) (cnt : Nat) (t : Tick) : StepResult :=
  match t.usage with
  | .error _ => ⟨false, false, none⟩
  | .ok u =>
    if u < cfg.threshold then ⟨false, false, some 0⟩
    else if cnt = 0 then
      if cfg.reportBoth && !cfg.disableOtherProf then
        match t.otherUsage with
        | .error _ => ⟨true, false, none⟩
        | .ok _ => ⟨true, true, some (bumpCnt cfg 0)⟩
      else ⟨true, false, some (bumpCnt cfg 0)⟩
    else ⟨false, false, some (bumpCnt cfg cnt)⟩

/-- Run of the watcher loop over a list of tick inputs, starting from a
given counter; returns the per-tick "reported this kind's profile" flags,
cut short when the loop returns. -/
def runWatch (cfg : WatchCfg) (cnt : Nat) : List Tick → List Bool
  | [] => []
  | t :: ts =>
    let r := watchStep cfg cnt t
    match r.next with
    | none => [r.reported]
    | some c => r.reported :: runWatch cfg c ts

/-- A tick whose usage read succeeds with a value at or above the threshold
and whose cross-path usage read (if consulted) also succeeds. -/
def highTick (cfg : WatchCfg) (t : Tick) : Prop :=
  (∃ u, t.usage = Except.ok u ∧ cfg.threshold ≤ u) ∧
  (∃ v, t.otherUsage = Except.ok v)

/-- Synthetic legacy provider with a capacity-3 snapshot buffer, as used by
the rate-correctness example of the spec. -/
def rateExample0 : cgroupV1 := ⟨0, newCPUUsageSnapshotQueue 3⟩

/-- Provider after setCPUQuota has read quota file 50000 and period file
100000, giving quota 0.5. -/
def rateExample1 : cgroupV1 :=
  (rateExample0.setCPUQuota (FileRead.lines ["50000"]) (FileRead.lines ["100000"])).1

/-- First cpuUsage call of the example: counter 0 ns at time 0 s. -/
def rateCall1 : cgroupV1 × ℚ × Option GoErr :=
  rateExample1.cpuUsage (Except.ok ⟨0, 0, 0, 0⟩) 0

/-- Second cpuUsage call of the example: counter 2e9 ns at time 1 s. -/
def rateCall2 : cgroupV1 × ℚ × Option GoErr :=
  rateCall1.1.cpuUsage (Except.ok ⟨2000000000, 0, 0, 0⟩) 1000000000

/-- Third cpuUsage call of the example: counter 4e9 ns at time 2 s. -/
def rateCall3 : cgroupV1 × ℚ × Option GoErr :=
  rateCall2.1.cpuUsage (Except.ok ⟨4000000000, 0, 0, 0⟩) 2000000000

/-- Helper: the uint64 subtraction followed by the int64 reinterpretation
recovers the exact difference when the counter did not decrease and the
difference is below 2^63. -/
theorem int64OfUInt64_u64Sub (a b : Nat) (hle : b ≤ a) (hlt : a - b < 2 ^ 63) :
    int64OfUInt64 (u64Sub a b) = (a : Int) - (b : Int) := by
  unfold u64Sub int64OfUInt64
  have h1 : a + 2 ^ 64 - b = (a - b) + 2 ^ 64 := by omega
  have h2 : ((a - b) + 2 ^ 64) % 2 ^ 64 = a - b := by omega
  rw [h1, h2, if_pos hlt]
  omega

/-- Helper: enqueueing into a non-latched queue with strictly more than one
slot of headroom leaves the queue non-full. -/
theorem enqueue_not_full (q : CPUUsageSnapshotQueue) (s : CPUUsageSnapshot)
    (h1 : q.full = false) (h2 : q.items.length + 1 < q.capacity) :
    (q.enqueue s).isFull = false := by
  unfold CPUUsageSnapshotQueue.enqueue CPUUsageSnapshotQueue.isFull
  simp only [List.length_append, List.length_cons, List.length_nil, h1, Bool.false_or]
  rw [if_neg (by omega)]
  simp only [List.length_append, List.length_cons, List.length_nil]
  rw [decide_eq_false_iff_not]
  omega

/-- Helper: on a tick whose reads succeed with usage at or above the
threshold, the step reports exactly when the counter is 0, cross-reports
exactly when additionally cross-reporting applies, and always continues
with the bumped counter. -/
theorem watchStep_high (cfg : WatchCfg) (cnt : Nat) (t : Tick)
    (h : highTick cfg t) :
    watchStep cfg cnt t =
      ⟨decide (cnt = 0),
       decide (cnt = 0) && (cfg.reportBoth && !cfg.disableOtherProf),
       some (bumpCnt cfg cnt)⟩ := by
  obtain ⟨⟨u, hu, hthr⟩, ⟨v, hv⟩⟩ := h
  unfold watchStep
  rw [hu]
  simp only [not_lt.mpr hthr, if_false]
  by_cases hc : cnt = 0
  · subst hc
    cases hb : cfg.reportBoth && !cfg.disableOtherProf
    · simp [hb]
    · simp [hb, hv]
  · simp [hc]

/-- Helper: with debounce limit 3 and a counter below 3, a run over ticks
that are all at or above threshold (with successful reads) reports exactly
on the ticks where the running counter is congruent to 0 mod 3. -/
theorem runWatch_high3 (cfg : WatchCfg)
    (h3 : cfg.minConsecutiveOverThreshold = 3) :
    ∀ (ticks : List Tick) (cnt : Nat), cnt < 3 →
      (∀ t ∈ ticks, highTick cfg t) →
      runWatch cfg cnt ticks =
        (List.range ticks.length).map (fun i => decide ((cnt + i) % 3 = 0)) := by
  intro ticks
  induction ticks with
  | nil =>
    intro cnt _ _
    simp [runWatch]
  | cons t ts ih =>
    intro cnt hlt hall
    have hh := hall t (List.mem_cons_self t ts)
    have hbump : bumpCnt cfg cnt = (cnt + 1) % 3 := by
      unfold bumpCnt
      rw [h3]
      split <;> omega
    rw [runWatch, watchStep_high cfg cnt t hh]
    simp only [hbump]
    rw [ih ((cnt + 1) % 3) (Nat.mod_lt _ (by omega))
      (fun x hx => hall x (List.mem_cons_of_mem t hx))]
    rw [List.length_cons, List.range_succ_eq_map, List.map_cons, List.map_map]
    have h0 : decide (cnt = 0) = decide ((cnt + 0) % 3 = 0) := by
      rw [decide_eq_decide]
      omega
    rw [h0]
    have hfun : (fun i => decide (((cnt + 1) % 3 + i) % 3 = 0)) =
        ((fun i => decide ((cnt + i) % 3 = 0)) ∘ Nat.succ) := by
      funext i
      simp only [Function.comp]
      rw [decide_eq_decide]
      omega
    rw [hfun]

/-- C1: for the legacy-hierarchy provider, every cpuUsage call that
succeeds in reading the stat pushes a new usage snapshot; once the snapshot
buffer is full the call returns ((tail.usage - head.usage) /
(tail.timestamp - head.timestamp)) / quota, where setCPUQuota previously
stored quota = quotaFileValue / periodFileValue; and on the spec example
(cumulative usage 0, 2e9, 4e9 ns at 0 s, 1 s, 2 s with quota 50000/100000 =
0.5) the first two calls return (0, nil) and the third returns 4. -/
theorem c1_cgroupV1_cpuUsage_rate (c : cgroupV1) (m : V1Metrics) (now : Int)
    (hfull : (c.q.enqueue ⟨m.cpuUsageTotal, now⟩).isFull = true)
    (hmono : (c.q.enqueue ⟨m.cpuUsageTotal, now⟩).headSnap.usage ≤
      (c.q.enqueue ⟨m.cpuUsageTotal, now⟩).tailSnap.usage)
    (hrange : (c.q.enqueue ⟨m.cpuUsageTotal, now⟩).tailSnap.usage -
      (c.q.enqueue ⟨m.cpuUsageTotal, now⟩).headSnap.usage < 2 ^ 63) :
    (∀ (c2 : cgroupV1) (m2 : V1Metrics) (now2 : Int),
      (c2.cpuUsage (Except.ok m2) now2).1.q = c2.q.enqueue ⟨m2.cpuUsageTotal, now2⟩) ∧
    (c.cpuUsage (Except.ok m) now).2 =
      (((((c.q.enqueue ⟨m.cpuUsageTotal, now⟩).tailSnap.usage : ℚ) -
          ((c.q.enqueue ⟨m.cpuUsageTotal, now⟩).headSnap.usage : ℚ)) /
        (((c.q.enqueue ⟨m.cpuUsageTotal, now⟩).tailSnap.timestamp : ℚ) -
          ((c.q.enqueue ⟨m.cpuUsageTotal, now⟩).headSnap.timestamp : ℚ))) /
        c.cpuQuota, none) ∧
    rateExample1.cpuQuota = 1 / 2 ∧
    rateCall1.2 = (0, none) ∧ rateCall2.2 = (0, none) ∧ rateCall3.2 = (4, none) := by
  refine ⟨?_, ?_, ?_, ?_, ?_, ?_⟩
  · intro c2 m2 now2
    simp only [cgroupV1.cpuUsage]
    split <;> rfl
  · simp only [cgroupV1.cpuUsage]
    simp only [hfull, if_true]
    rw [int64OfUInt64_u64Sub _ _ hmono hrange]
    push_cast
    rfl
  · simp [rateExample1, rateExample0, cgroupV1.setCPUQuota, parseCPU, atoi, digitsVal,
      newCPUUsageSnapshotQueue]
    norm_num
  · simp [rateCall1, rateExample1, rateExample0, cgroupV1.cpuUsage, cgroupV1.setCPUQuota,
      parseCPU, atoi, digitsVal, newCPUUsageSnapshotQueue, CPUUsageSnapshotQueue.enqueue,
      CPUUsageSnapshotQueue.isFull]
  · simp [rateCall2, rateCall1, rateExample1, rateExample0, cgroupV1.cpuUsage,
      cgroupV1.setCPUQuota, parseCPU, atoi, digitsVal, newCPUUsageSnapshotQueue,
      CPUUsageSnapshotQueue.enqueue, CPUUsageSnapshotQueue.isFull]
  · simp [rateCall3, rateCall2, rateCall1, rateExample1, rateExample0, cgroupV1.cpuUsage,
      cgroupV1.setCPUQuota, parseCPU, atoi, digitsVal, newCPUUsageSnapshotQueue,
      CPUUsageSnapshotQueue.enqueue, CPUUsageSnapshotQueue.isFull,
      CPUUsageSnapshotQueue.headSnap, CPUUsageSnapshotQueue.tailSnap, int64OfUInt64, u64Sub]
    norm_num

/-- Witness for C1: the third call of the spec example is made on a buffer
that becomes full, and the theorem applies to it with all hypotheses
discharged concretely. -/
theorem c1_cgroupV1_cpuUsage_rate_witness :
    (rateCall2.1.q.enqueue ⟨4000000000, 2000000000⟩).isFull = true ∧
    (rateCall2.1.cpuUsage (Except.ok ⟨4000000000, 0, 0, 0⟩) 2000000000).2 =
      (((((rateCall2.1.q.enqueue ⟨4000000000, 2000000000⟩).tailSnap.usage : ℚ) -
          ((rateCall2.1.q.enqueue ⟨4000000000, 2000000000⟩).headSnap.usage : ℚ)) /
        (((rateCall2.1.q.enqueue ⟨4000000000, 2000000000⟩).tailSnap.timestamp : ℚ) -
          ((rateCall2.1.q.enqueue ⟨4000000000, 2000000000⟩).headSnap.timestamp : ℚ))) /
        rateCall2.1.cpuQuota, none) :=
  ⟨by decide,
   (c1_cgroupV1_cpuUsage_rate rateCall2.1 ⟨4000000000, 0, 0, 0⟩ 2000000000
      (by decide) (by decide) (by decide)).2.1⟩

/-- C3: for both snapshot-buffer provider variants (legacy-hierarchy and
fixed-limit), every cpuUsage call made before the buffer has reached
capacity returns (0, nil), regardless of the cumulative counter values
read. -/
theorem c3_not_ready_returns_zero (c : cgroupV1) (a : awsFargate)
    (hc1 : c.q.full = false) (hc2 : c.q.items.length + 1 < c.q.capacity)
    (ha1 : a.q.full = false) (ha2 : a.q.items.length + 1 < a.q.capacity) :
    (∀ (m : V1Metrics) (now : Int),
      (c.cpuUsage (Except.ok m) now).2 = (0, none)) ∧
    (∀ (m : V1Metrics) (now : Int),
      (a.cpuUsage (Except.ok m) now).2 = (0, none)) := by
  constructor
  · intro m now
    simp only [cgroupV1.cpuUsage]
    rw [if_neg]
    rw [enqueue_not_full c.q ⟨m.cpuUsageTotal, now⟩ hc1 hc2]
    simp
  · intro m now
    simp only [awsFargate.cpuUsage]
    rw [if_neg]
    rw [enqueue_not_full a.q ⟨m.cpuUsageTotal, now⟩ ha1 ha2]
    simp

/-- Witness for C3: fresh capacity-3 providers whose first call is before
capacity is reached. -/
theorem c3_not_ready_returns_zero_witness :
    (((⟨0, newCPUUsageSnapshotQueue 3⟩ : cgroupV1).cpuUsage
        (Except.ok ⟨999999, 1, 2, 3⟩) 7).2 = (0, none)) ∧
    (((⟨2, newCPUUsageSnapshotQueue 3⟩ : awsFargate).cpuUsage
        (Except.ok ⟨888888, 4, 5, 6⟩) 9).2 = (0, none)) :=
  ⟨(c3_not_ready_returns_zero ⟨0, newCPUUsageSnapshotQueue 3⟩
      ⟨2, newCPUUsageSnapshotQueue 3⟩ (by decide) (by decide) (by decide)
      (by decide)).1 ⟨999999, 1, 2, 3⟩ 7,
   (c3_not_ready_returns_zero ⟨0, newCPUUsageSnapshotQueue 3⟩
      ⟨2, newCPUUsageSnapshotQueue 3⟩ (by decide) (by decide) (by decide)
      (by decide)).2 ⟨888888, 4, 5, 6⟩ 9⟩

/-- C5: for the fixed-limit (AWS Fargate) provider, setCPUQuota always
succeeds without reading anything, and cpuUsage, once the snapshot buffer
is full, returns the raw cumulative usage counter divided by the fixed
limit limitPerVCPU * vCPUSize, with no period-normalization step. -/
theorem c5_awsFargate_fixed_limit (a : awsFargate) (m : V1Metrics) (now : Int)
    (hfull : (a.q.enqueue ⟨m.cpuUsageTotal, now⟩).isFull = true) :
    (∀ a2 : awsFargate, a2.setCPUQuota = (a2, none)) ∧
    (a.cpuUsage (Except.ok m) now).2 =
      ((m.cpuUsageTotal : ℚ) / ((limitPerVCPU : ℚ) * a.vCPUSize), none) := by
  constructor
  · intro a2
    rfl
  · simp only [awsFargate.cpuUsage]
    simp only [hfull, if_true]

/-- Witness for C5: a capacity-1 buffer becomes full on the first call. -/
theorem c5_awsFargate_fixed_limit_witness :
    ((⟨4, newCPUUsageSnapshotQueue 1⟩ : awsFargate).cpuUsage
        (Except.ok ⟨5000000000, 0, 0, 0⟩) 11).2 =
      ((5000000000 : ℚ) / ((limitPerVCPU : ℚ) * 4), none) :=
  (c5_awsFargate_fixed_limit ⟨4, newCPUUsageSnapshotQueue 1⟩
    ⟨5000000000, 0, 0, 0⟩ 11 (by decide)).2

/-- C2: with debounce limit 3, a watcher loop whose usage is at or above
the threshold on each of 10 consecutive ticks (all reads succeeding)
dispatches a report on exactly ticks 1, 4, 7 and 10; and any tick with
usage strictly below the threshold resets the consecutive-breach counter to
0, so the next at-or-above tick dispatches as a new breach. -/
theorem c2_debounce_cadence (cfg : WatchCfg)
    (h3 : cfg.minConsecutiveOverThreshold = 3) :
    (∀ ticks : List Tick, ticks.length = 10 →
      (∀ t ∈ ticks, highTick cfg t) →
      runWatch cfg 0 ticks =
        [true, false, false, true, false, false, true, false, false, true]) ∧
    (∀ (cnt : Nat) (t : Tick) (u : ℚ), t.usage = Except.ok u →
      u < cfg.threshold → watchStep cfg cnt t = ⟨false, false, some 0⟩) ∧
    (∀ t : Tick, highTick cfg t → (watchStep cfg 0 t).reported = true) := by
  refine ⟨?_, ?_, ?_⟩
  · intro ticks hlen hall
    rw [runWatch_high3 cfg h3 ticks 0 (by omega) hall, hlen]
    decide
  · intro cnt t u hu hlt
    unfold watchStep
    rw [hu]
    simp only [if_pos hlt]
  · intro t ht
    rw [watchStep_high cfg 0 t ht]
    simp

/-- Witness for C2: a concrete configuration with debounce limit 3 and ten
identical at-threshold ticks. -/
theorem c2_debounce_cadence_witness :
    runWatch ⟨1, 3, false, false⟩ 0
        (List.replicate 10 ⟨Except.ok 2, none, Except.ok 2, none⟩) =
      [true, false, false, true, false, false, true, false, false, true] :=
  (c2_debounce_cadence ⟨1, 3, false, false⟩ rfl).1
    (List.replicate 10 ⟨Except.ok 2, none, Except.ok 2, none⟩)
    (by simp)
    (fun t ht => by
      rw [List.eq_of_mem_replicate ht]
      exact ⟨⟨2, rfl, by decide⟩, ⟨2, rfl⟩⟩)

/-- Configuration used by the C4 counterexample: cross-reporting enabled,
the other resource kind not disabled. -/
def c4Cfg : WatchCfg := ⟨1, 12, true, false⟩

/-- Tick used by the C4 counterexample: this kind's usage reads 2 (at or
above the threshold 1, a new breach), while the other kind's usage read
fails. -/
def c4Tick : Tick := ⟨Except.ok 2, none, Except.error GoErr.memReadFailed, none⟩

/-- Counterexample to C4 as stated: at a new breach with cross-reporting
enabled and a failing read of the other resource kind's usage, the step
returns next = none, i.e. the watcher loop returns and does not continue to
poll on subsequent ticks (the claim says only the sub-report is aborted and
the loop continues). -/
theorem c4_counterexample :
    watchStep c4Cfg 0 c4Tick = ⟨true, false, none⟩ := by
  decide

/-- C4 as amended: when a new breach triggers a cross-report and the read
of the other resource kind's usage fails, the main report still fires but
the watcher loop terminates (the loop returns, exactly as it does for a
primary read error); it is only a failure of the cross profile report
itself (after a successful usage read) that is merely logged, with the loop
continuing. -/
theorem c4_cross_read_failure_terminates (cfg : WatchCfg) (t t2 : Tick)
    (u u2 v : ℚ) (e : GoErr)
    (hrb : cfg.reportBoth = true) (hdo : cfg.disableOtherProf = false)
    (hu : t.usage = Except.ok u) (hthr : cfg.threshold ≤ u)
    (ho : t.otherUsage = Except.error e)
    (hu2 : t2.usage = Except.ok u2) (hthr2 : cfg.threshold ≤ u2)
    (ho2 : t2.otherUsage = Except.ok v) :
    watchStep cfg 0 t = ⟨true, false, none⟩ ∧
    watchStep cfg 0 t2 = ⟨true, true, some (bumpCnt cfg 0)⟩ := by
  constructor
  · unfold watchStep
    rw [hu]
    simp only [not_lt.mpr hthr, if_false, if_pos rfl, hrb, hdo]
    simp [ho]
  · rw [watchStep_high cfg 0 t2 ⟨⟨u2, hu2, hthr2⟩, ⟨v, ho2⟩⟩]
    simp [hrb, hdo]

/-- Witness for the amended C4: the counterexample tick terminates the
loop, while a tick whose cross usage read succeeds but whose cross report
fails continues. -/
theorem c4_cross_read_failure_terminates_witness :
    watchStep c4Cfg 0 c4Tick = ⟨true, false, none⟩ ∧
    watchStep c4Cfg 0 ⟨Except.ok 2, none, Except.ok 3, some GoErr.deliveryFailed⟩ =
      ⟨true, true, some (bumpCnt c4Cfg 0)⟩ :=
  c4_cross_read_failure_terminates c4Cfg c4Tick
    ⟨Except.ok 2, none, Except.ok 3, some GoErr.deliveryFailed⟩
    2 2 3 GoErr.memReadFailed rfl rfl rfl (by decide) rfl rfl (by decide) rfl

/-- C6: at startup, when the UseAWSFargate override is configured, the
fixed-limit variant is selected for every recognized accounting mode; and
when no override is configured and no accounting mode is recognized, Start
fails with ErrCgroupsUnavailable (no fallback variant). -/
theorem c6_start_variant_selection :
    (∀ mode : CgroupsMode, mode ≠ CgroupsMode.unavailable →
      startSelectQueryer mode true = Except.ok QueryerVariant.fargate) ∧
    startSelectQueryer CgroupsMode.unavailable false =
      Except.error GoErr.errCgroupsUnavailable := by
  constructor
  · intro mode h
    cases mode <;> simp [startSelectQueryer, newQueryer] at h ⊢
  · rfl

/-- Witness for C6: the legacy mode with the override selects the
fixed-limit variant. -/
theorem c6_start_variant_selection_witness :
    startSelectQueryer CgroupsMode.legacy true = Except.ok QueryerVariant.fargate :=
  c6_start_variant_selection.1 CgroupsMode.legacy (by decide)

/-- C7: when setCPUQuota fails at startup (and cpu profiling was enabled),
Start returns the error if memory profiling is disabled; if memory
profiling is enabled, Start succeeds and the resulting state has cpu
profiling disabled (the only write to this flag in the source sets it to
true, so the transition is one-way for the process lifetime); and a
successful setCPUQuota changes nothing. -/
theorem c7_quota_failure_degrades (ap : autoPprof) (e : GoErr)
    (hcpu : ap.disableCPUProf = false) :
    (ap.disableMemProf = true → startLoadCPUQuota ap (some e) = Except.error e) ∧
    (ap.disableMemProf = false →
      startLoadCPUQuota ap (some e) =
        Except.ok { ap with disableCPUProf := true }) ∧
    startLoadCPUQuota ap none = Except.ok ap := by
  refine ⟨?_, ?_, ?_⟩
  · intro hm
    simp [startLoadCPUQuota, autoPprof.loadCPUQuota, hcpu, hm]
  · intro hm
    simp [startLoadCPUQuota, autoPprof.loadCPUQuota, hcpu, hm]
  · simp [startLoadCPUQuota, autoPprof.loadCPUQuota, hcpu]

/-- Witness for C7: a concrete configuration with memory profiling enabled
degrades by disabling cpu profiling; with memory profiling disabled the
error is fatal. -/
theorem c7_quota_failure_degrades_witness :
    startLoadCPUQuota ⟨1, 1, 12, false, false, false⟩ (some GoErr.openFailed) =
      Except.ok { (⟨1, 1, 12, false, false, false⟩ : autoPprof) with
        disableCPUProf := true } ∧
    startLoadCPUQuota ⟨1, 1, 12, false, false, true⟩ (some GoErr.openFailed) =
      Except.error GoErr.openFailed :=
  ⟨(c7_quota_failure_degrades ⟨1, 1, 12, false, false, false⟩
      GoErr.openFailed rfl).2.1 rfl,
   (c7_quota_failure_degrades ⟨1, 1, 12, false, false, true⟩
      GoErr.openFailed rfl).1 rfl⟩

/-- Counterexample to C8 as stated: the legacy cgroup-v1 "unlimited"
sentinel is the value -1 in cpu.cfs_quota_us, and strconv.Atoi parses "-1"
as an ordinary integer, so setCPUQuota succeeds (error nil) on the sentinel
and stores the negative quota -1/100000 instead of failing with a
ConfigError. -/
theorem c8_counterexample :
    (newCgroupsV1.setCPUQuota (FileRead.lines ["-1"])
        (FileRead.lines ["100000"])).2 = none ∧
    (newCgroupsV1.setCPUQuota (FileRead.lines ["-1"])
        (FileRead.lines ["100000"])).1.cpuQuota = -1 / 100000 := by
  constructor
  · simp [newCgroupsV1, cgroupV1.setCPUQuota, parseCPU, atoi, digitsVal,
      newCPUUsageSnapshotQueue]
  · simp [newCgroupsV1, cgroupV1.setCPUQuota, parseCPU, atoi, digitsVal,
      newCPUUsageSnapshotQueue]

/-- C8 as amended: setCPUQuota fails when either accounting file is
unreadable (and likewise for non-numeric or empty contents, which Atoi or
the scanner reject), while the sentinel "-1" parses as an ordinary integer;
whenever both files parse as integers — the sentinel included — setCPUQuota
succeeds and stores quota = quotaFileValue / periodFileValue. -/
theorem c8_setCPUQuota_amended (c : cgroupV1) (qf pf : FileRead)
    (qv pv : Int) (hq : parseCPU qf = Except.ok qv)
    (hp : parseCPU pf = Except.ok pv) :
    (c.setCPUQuota FileRead.unreadable pf).2 = some GoErr.openFailed ∧
    (c.setCPUQuota qf FileRead.unreadable).2 = some GoErr.openFailed ∧
    (∀ s : String, atoi s = none →
      (c.setCPUQuota (FileRead.lines [s]) pf).2 = some GoErr.atoiFailed) ∧
    (c.setCPUQuota (FileRead.lines []) pf).2 = some GoErr.errV1CPUSubsystemEmpty ∧
    parseCPU (FileRead.lines ["-1"]) = Except.ok (-1) ∧
    c.setCPUQuota qf pf = ({ c with cpuQuota := (qv : ℚ) / (pv : ℚ) }, none) := by
  refine ⟨?_, ?_, ?_, ?_, ?_, ?_⟩
  · rfl
  · unfold cgroupV1.setCPUQuota
    rw [hq]
    rfl
  · intro s hs
    simp [cgroupV1.setCPUQuota, parseCPU, hs]
  · rfl
  · simp [parseCPU, atoi, digitsVal]
  · simp [cgroupV1.setCPUQuota, hq, hp]

/-- Witness for the amended C8: concrete quota file "-1" and period file
"100000" yield quota -1/100000 with no error. -/
theorem c8_setCPUQuota_amended_witness :
    newCgroupsV1.setCPUQuota (FileRead.lines ["-1"]) (FileRead.lines ["100000"]) =
      ({ newCgroupsV1 with cpuQuota := ((-1 : Int) : ℚ) / ((100000 : Int) : ℚ) },
        none) :=
  (c8_setCPUQuota_amended newCgroupsV1 (FileRead.lines ["-1"])
    (FileRead.lines ["100000"]) (-1) 100000
    (by simp [parseCPU, atoi, digitsVal])
    (by simp [parseCPU, atoi, digitsVal])).2.2.2.2.2

/-- C9: reportCPUProfile and reportHeapProfile invoke the reporter with
threshold and usage percentages equal to the configured threshold * 100 and
the sampled usage * 100, under the fixed 5-second (5e9 ns) delivery
deadline, and return the capture or delivery failure to the caller; and the
watcher step is unaffected by the outcome of either report, so the loop
continues (or stops) exactly as it would had the report succeeded. -/
theorem c9_report_metadata_deadline :
    reportTimeout = 5 * 1000000000 ∧
    (∀ (ap : autoPprof) (b : List Nat)
      (r : Int → List Nat → CPUInfo → Option GoErr) (u : ℚ),
      ap.reportCPUProfile (Except.ok b) r u =
        r reportTimeout b ⟨ap.cpuThreshold * 100, u * 100⟩) ∧
    (∀ (ap : autoPprof) (e : GoErr)
      (r : Int → List Nat → CPUInfo → Option GoErr) (u : ℚ),
      ap.reportCPUProfile (Except.error e) r u = some (GoErr.wrapCPUProfile e)) ∧
    (∀ (ap : autoPprof) (b : List Nat)
      (r : Int → List Nat → MemInfo → Option GoErr) (u : ℚ),
      ap.reportHeapProfile (Except.ok b) r u =
        r reportTimeout b ⟨ap.memThreshold * 100, u * 100⟩) ∧
    (∀ (ap : autoPprof) (e : GoErr)
      (r : Int → List Nat → MemInfo → Option GoErr) (u : ℚ),
      ap.reportHeapProfile (Except.error e) r u = some (GoErr.wrapHeapProfile e)) ∧
    (∀ (cfg : WatchCfg) (cnt : Nat) (t : Tick) (r1 r2 : Option GoErr),
      watchStep cfg cnt { t with reportResult := r1, otherReportResult := r2 } =
        watchStep cfg cnt t) := by
  refine ⟨rfl, fun _ _ _ _ => rfl, fun _ _ _ _ => rfl, fun _ _ _ _ => rfl,
    fun _ _ _ _ => rfl, ?_⟩
  intro cfg cnt t r1 r2
  cases t
  rfl

/-- Helper: unsigned 64-bit subtraction wraps to 2^64 - (b - a) when the
subtrahend exceeds the minuend. -/
theorem u64Sub_of_lt (a b : Nat) (hb : b < 2 ^ 64) (hab : a < b) :
    u64Sub a b = 2 ^ 64 - (b - a) := by
  unfold u64Sub
  omega

/-- C10: in memUsage of both variants, the numerator usage - inactiveFile
is an unsigned 64-bit subtraction, so whenever inactiveFile exceeds the
current usage the difference wraps modulo 2^64 and memUsage returns the
enormous positive ratio (2^64 - (inactiveFile - usage)) / limit — positive,
not negative or zero. -/
theorem c10_memUsage_unsigned_wrap (m : V1Metrics)
    (hu : m.memUsage < 2 ^ 64) (hi : m.inactiveFile < 2 ^ 64)
    (hlt : m.memUsage < m.inactiveFile)
    (hl : 0 < m.hierarchicalMemoryLimit) :
    cgroupV1.memUsage (Except.ok m) =
      (((2 ^ 64 - (m.inactiveFile - m.memUsage) : Nat) : ℚ) /
        (m.hierarchicalMemoryLimit : ℚ), none) ∧
    awsFargate.memUsage (Except.ok m) = cgroupV1.memUsage (Except.ok m) ∧
    0 < (cgroupV1.memUsage (Except.ok m)).1 := by
  have hnum : u64Sub m.memUsage m.inactiveFile =
      2 ^ 64 - (m.inactiveFile - m.memUsage) :=
    u64Sub_of_lt m.memUsage m.inactiveFile hi hlt
  refine ⟨?_, rfl, ?_⟩
  · simp only [cgroupV1.memUsage, hnum]
  · simp only [cgroupV1.memUsage, hnum]
    apply div_pos
    · have : (0 : Nat) < 2 ^ 64 - (m.inactiveFile - m.memUsage) := by omega
      exact_mod_cast this
    · exact_mod_cast hl

/-- Witness for C10: usage 0, inactiveFile 5, limit 100 gives the enormous
ratio (2^64 - 5) / 100. -/
theorem c10_memUsage_unsigned_wrap_witness :
    cgroupV1.memUsage (Except.ok ⟨0, 0, 5, 100⟩) =
      (((2 ^ 64 - 5 : Nat) : ℚ) / ((100 : Nat) : ℚ), none) ∧
    0 < (cgroupV1.memUsage (Except.ok ⟨0, 0, 5, 100⟩)).1 :=
  ⟨(c10_memUsage_unsigned_wrap ⟨0, 0, 5, 100⟩ (by decide)
      (by decide) (by decide) (by decide)).1,
   (c10_memUsage_unsigned_wrap ⟨0, 0, 5, 100⟩ (by decide)
      (by decide) (by decide) (by decide)).2.2⟩
